import Mathlib

/-!
# Verification of the INA219 terminal data logger

A shallow embedding of `terminal.py` (the command-line front end for the
TI INA219 current/power sensor) and proofs about its sampling loop, energy
accumulation, bar-plot helper, header emission and argument handling.

Modelling conventions:
* Python floats are modelled as exact rationals (`ℚ`); binary rounding of
  IEEE floats is abstracted away.
* Python exceptions that the script can raise inside modelled code are
  made explicit with `Except PyError`.
* String manipulation is implemented over `List Char` so that concrete
  runs reduce inside the kernel.
-/

/-- Exceptions the embedded fragments can raise. -/
inductive PyError
  | zeroDivisionError
  | typeError
deriving DecidableEq

/-- Python string repetition `c * k`: a negative count yields the empty
string, exactly as in Python. -/
def strRep (c : Char) (k : ℤ) : String :=
  String.mk (List.replicate k.toNat c)

/-- Python `str.rjust(w)`: left-pad with spaces to width `w`. -/
def rjust (s : String) (w : ℕ) : String :=
  String.mk (List.replicate (w - s.data.length) ' ') ++ s

/-- Python `int(float)`: truncation toward zero. -/
def pyTrunc (q : ℚ) : ℤ :=
  if 0 ≤ q then ⌊q⌋ else -⌊-q⌋

/-- The function `plotter` from `terminal.py` (lines 85-104): ascii bar plot of one value.

The translation is literal: the overflow branch returns `"#" * x_max`
(not `chars` wide, and with `'#'` instead of `plot_char`); the fill width
is computed with `int(...)` truncation; the division by `x_max - x_min`
is unguarded, so `x_max = x_min` raises `ZeroDivisionError` whenever the
overflow branch is not taken.  Repeating a string by a non-integral float
(`"#" * x_max` with fractional `x_max`) raises `TypeError` in Python; the
rational embedding keeps that case as an explicit error. -/
def plotter (x x_max x_min : ℚ) (chars : ℤ) (plot_char : Char) : Except PyError String :=
  if x > x_max then
    if x_max.den = 1 then Except.ok (strRep '#' x_max.num)
    else Except.error PyError.typeError
  else if x_max - x_min = 0 then Except.error PyError.zeroDivisionError
  else
    let a := pyTrunc ((x - x_min) / (x_max - x_min) * chars)
    Except.ok (strRep plot_char a ++ strRep ' ' (chars - a))

/-- The bar-plot function exactly as the spec's words describe it
(§4.3: a fill of `round((x - xMin)/(xMax - xMin) * chars)` repetitions of
the bar character, space-padded to `chars`); kept separate from `plotter`
so the two can be compared. -/
def plotterSpec (x x_max x_min : ℚ) (chars : ℤ) : String :=
  let a := round ((x - x_min) / (x_max - x_min) * chars)
  strRep '=' a ++ strRep ' ' (chars - a)

/-! ## Energy accumulation (the `ina219` driver interface)

The `ina219` driver module is not part of this repository's sources; only
`terminal.py` is.  Its energy interface (`get_energy_simple`, `e`,
`e_total`, `available_units`, `set_energy_units`) is therefore modelled
from the spec (§4.2). -/

/-- Modelled from the spec: the driver's unit universe for the `-u`
option (`available_units` of the missing `ina219` module). -/
def available_units : List String := ["J", "Wh", "kW"]

/-- The driver state visible to `terminal.py`: last instant energy `e`,
running total `e_total`, and the time of the previous acquisition. -/
structure INA219State where
  e : ℚ
  e_total : ℚ
  last_t : ℚ
deriving DecidableEq

/-- Modelled from the spec (§4.2): the energy contributed by one sample,
from the instantaneous power and the time since the previous sample.
`J`: `power * deltaT`; `Wh`: the same divided by 3600; `kW` is an
instantaneous display of `power / 1000` with no time semantics. -/
def instantEnergy (units : String) (power d : ℚ) : ℚ :=
  if units = "J" then power * d
  else if units = "Wh" then power * d / 3600
  else power / 1000

/-- Modelled from the spec: one `i.get_energy_simple()` call, acquiring a
sample of instantaneous power `power` at wall-clock time `t`: it sets
`e` to the instant energy since the previous call and accumulates it
into `e_total`.  (The spec leaves the `kW` total unspecified; it is
accumulated uniformly here and never asserted for `kW`.) -/
def get_energy_simple (units : String) (power t : ℚ) (s : INA219State) : INA219State :=
  let e := instantEnergy units power (t - s.last_t)
  { e := e, e_total := s.e_total + e, last_t := t }

/-- Folding a list of `(power, t)` acquisitions through the driver. -/
def runSamples (units : String) (s : INA219State) (samples : List (ℚ × ℚ)) : INA219State :=
  samples.foldl (fun st pr => get_energy_simple units pr.1 pr.2 st) s

/-- The per-sample instant energies of a run, chaining each sample's
`deltaT` from the previous sample's time. -/
def instEnergies (units : String) (last_t : ℚ) : List (ℚ × ℚ) → List ℚ
  | [] => []
  | pr :: rest => instantEnergy units pr.1 (pr.2 - last_t) :: instEnergies units pr.2 rest

/-! ## Output formatting (`terminal.py` lines 234-278, 305-326) -/

/-- Decimal digits of an integer, via `toString`. -/
def intStr (n : ℤ) : String := toString n

/-- Python fixed-point float formatting (`"%0.3f"`, `"{:.3f}"`) with `p`
decimal places, on the exact rational value.  Rounding is
half-away-from-zero; CPython's round-half-even on binary floats differs
only at exact ties, which none of the concrete values below are. -/
def formatFixed (p : ℕ) (q : ℚ) : String :=
  let m := ⌊|q| * (10 : ℚ) ^ p + 1/2⌋
  let ip := m / (10 : ℤ) ^ p
  let fp := m % (10 : ℤ) ^ p
  let fs := intStr fp
  (if q < 0 then "-" else "") ++ intStr ip ++ "." ++
    String.mk (List.replicate (p - fs.data.length) '0') ++ fs

/-- Python `str(float)` for values with a finite decimal expansion
(`str(1.0) = "1.0"`); digit generation is capped at 17 places, enough for
every value the program prints this way. -/
def fracDigits : ℕ → ℚ → String
  | 0, _ => ""
  | fuel+1, q =>
    if q = 0 then ""
    else
      let d := ⌊q * 10⌋
      String.mk [Char.ofNat (48 + d.toNat)] ++ fracDigits fuel (q * 10 - d)

def strFloat (q : ℚ) : String :=
  let ip := ⌊|q|⌋
  let ds := fracDigits 17 (|q| - ip)
  (if q < 0 then "-" else "") ++ intStr ip ++ "." ++ (if ds = "" then "0" else ds)

/-- Python `"{:10.3f}"` formatting: fixed 3 decimals, right-justified to 10 characters. -/
def fmtTerm (q : ℚ) : String := rjust (formatFixed 3 q) 10

/-- The terminal column-label row (`header_terminal`, lines 248-254). -/
def header_terminal (units : String) : String :=
  rjust "unix time s" 14 ++ rjust "elapsed s" 10 ++ rjust "bus V" 10 ++ rjust "shunt A" 10 ++
    rjust "power W" 10 ++ rjust ("instant " ++ units) 10 ++ rjust ("total " ++ units) 10

/-- The CSV column-label row (`header_save`, lines 256-259), translated
literally: the source concatenates `"sample_energy_" + units` directly
with `"total_energy_" + units`, with no comma between them. -/
def header_save (units : String) : String :=
  "unix_time_s,elapsed_time_s,bus_voltage_V,shunt_current_A,power_W,sample_energy_" ++ units ++
    "total_energy_" ++ units

/-- The run configuration the sampling loop sees: module-level variables
of `terminal.py` after argument handling, plus the recorded `t0`.
`extras` is the accumulated informational text (address, save path,
serial port lines); its exact content involves `strftime` paths and is
carried as an opaque string. -/
structure RunCfg where
  inf : Bool
  n : ℤ
  dt : ℚ
  units : String
  f_save : Bool
  port_monitor : Bool
  port_tx : String
  graph : Bool
  graph_max : ℚ
  extras : String
  t0 : ℚ
deriving DecidableEq

def dt_header (cfg : RunCfg) : String :=
  if cfg.port_monitor then "Sample interval = as received from serial port\n"
  else "Sample interval = " ++ strFloat cfg.dt ++ " s\n"

def t_total (cfg : RunCfg) : String :=
  if cfg.inf ∨ cfg.port_monitor then ""
  else "Samples collected in " ++ strFloat (cfg.dt * cfg.n) ++ " s\n"

/-- The metadata header block (`header_common`, lines 269-275): a
multi-line block ending in a dash rule as wide as the terminal label
row.  Printed to the terminal before the loop and written verbatim to
the save file on the first iteration. -/
def header_common (cfg : RunCfg) : String :=
  "INA219 Voltage, Power & Energy Measurement\n" ++ cfg.extras ++
    "Number of samples = " ++ (if cfg.inf then "infinity" else intStr cfg.n) ++ "\n" ++
    dt_header cfg ++ t_total cfg ++
    "Energy units = " ++ cfg.units ++ "\n" ++
    strRep '-' ((header_terminal cfg.units).data.length : ℤ)

/-! ## The sampling loop (`terminal.py` lines 280-330) -/

/-- One sensor acquisition: the driver attributes read in the loop body
(`i.bus_voltage`, `i.i`, `i.p`) and the wall-clock time `time()` of the
iteration.  The microseconds between `i.get_energy_simple()` and the
`time()` call that follows it are abstracted to a single instant. -/
structure Reading where
  bus_voltage : ℚ
  i : ℚ
  p : ℚ
  t : ℚ
deriving DecidableEq

/-- An inbound serial line: either decodable UTF-8 content (already
stripped) or a line whose `decode` raises `UnicodeDecodeError`. -/
inductive SerialLine
  | ok (data : String)
  | malformed
deriving DecidableEq

/-- The external input of one loop iteration: the serial line that would
be read (used only in correlation mode) and the sensor reading that
would be acquired. -/
structure LoopEvent where
  line : SerialLine
  reading : Reading
deriving DecidableEq

/-- The loop's mutable state: the driver state, the sample counter `_n`,
and the data rows printed to the terminal and the strings written to the
save file so far (in order). -/
structure LoopState where
  ina : INA219State
  nDone : ℕ
  termRows : List String
  fileWrites : List String
deriving DecidableEq

/-- The terminal data row before the optional graph and serial suffixes:
`"{:.3f}".format(t)` followed by six `"{:10.3f}"` fields. -/
def terminalRowCore (r : Reading) (t_elapsed e e_total : ℚ) : String :=
  formatFixed 3 r.t ++ fmtTerm t_elapsed ++ fmtTerm r.bus_voltage ++ fmtTerm r.i ++
    fmtTerm r.p ++ fmtTerm e ++ fmtTerm e_total

/-- The CSV data row (`"%0.3f,%0.3f,%0.5f,%0.5f,%0.5f,%0.5f,%0.5f"`). -/
def csvRow (r : Reading) (t_elapsed e e_total : ℚ) : String :=
  formatFixed 3 r.t ++ "," ++ formatFixed 3 t_elapsed ++ "," ++
    formatFixed 5 r.bus_voltage ++ "," ++ formatFixed 5 r.i ++ "," ++
    formatFixed 5 r.p ++ "," ++ formatFixed 5 e ++ "," ++ formatFixed 5 e_total

/-- The global `graph_size` (line 44): bar-plot character budget. -/
def graph_size : ℤ := 10

/-- The strings appended to the save file in one successful iteration:
on the first iteration (`_n == 0`) the metadata block and the CSV label
row are written first, then always the CSV data row. -/
def fileDelta (cfg : RunCfg) (nDone : ℕ) (csv : String) : List String :=
  if cfg.f_save then
    (if nDone = 0 then [header_common cfg ++ "\n", header_save cfg.units ++ "\n"] else []) ++
      [csv ++ "\n"]
  else []

/-- The state after one successful pass through the loop body. -/
def stepState (cfg : RunCfg) (ev : LoopEvent) (row : String) (fdelta : List String)
    (s : LoopState) : LoopState :=
  { ina := get_energy_simple cfg.units ev.reading.p ev.reading.t s.ina,
    nDone := s.nDone + 1,
    termRows := s.termRows ++ [row],
    fileWrites := s.fileWrites ++ fdelta }

/-- Result of one pass through the loop body (after the count check):
`skip` is the `continue` taken on `UnicodeDecodeError`; `crashed` is an
uncaught exception (only the graph branch can raise one here). -/
inductive BodyOut
  | skip
  | stepped (s : LoopState)
  | crashed (e : PyError)
deriving DecidableEq

/-- One pass through the body of `while True` (lines 292-328), after the
sample-count check: read the serial line or sleep, acquire the sample,
build the terminal row (with optional graph bar and serial-data suffix),
print it, and append to the save file when enabled.  The `sleep`, the
serial `write` of `port_tx`, and the `print` side effects carry no data
beyond what the state records. -/
def loopBody (cfg : RunCfg) (ev : LoopEvent) (s : LoopState) : BodyOut :=
  match (if cfg.port_monitor then ev.line else SerialLine.ok "") with
  | SerialLine.malformed => BodyOut.skip
  | SerialLine.ok data =>
    let ina := get_energy_simple cfg.units ev.reading.p ev.reading.t s.ina
    let t_elapsed := ev.reading.t - cfg.t0
    let core := terminalRowCore ev.reading t_elapsed ina.e ina.e_total
    match (if cfg.graph then
            match plotter ev.reading.p cfg.graph_max 1 graph_size '=' with
            | Except.error e => Except.error e
            | Except.ok g => Except.ok (core ++ " | " ++ g)
          else Except.ok core) with
    | Except.error e => BodyOut.crashed e
    | Except.ok row0 =>
      let row := if cfg.port_monitor then row0 ++ " || " ++ data else row0
      let csv := csvRow ev.reading t_elapsed ina.e ina.e_total
      let csv2 := if cfg.port_monitor then csv ++ " || " ++ data else csv
      BodyOut.stepped (stepState cfg ev row (fileDelta cfg s.nDone csv2) s)

/-- How a modelled run of the loop ended: `finished` is the `break` on
reaching the sample count; `exhausted` means the modelled prefix of
external events ran out (an unbounded run continues past it); `crashed`
is an uncaught exception escaping the loop. -/
inductive LoopOutcome
  | finished
  | exhausted
  | crashed (e : PyError)
deriving DecidableEq

/-- The sampling loop: at the top of each iteration, a finite count that
has been reached breaks out of the loop; otherwise the body runs on the
next external event. -/
def runLoop (cfg : RunCfg) : List LoopEvent → LoopState → LoopState × LoopOutcome
  | [], s =>
    if cfg.inf = false ∧ (s.nDone : ℤ) = cfg.n then (s, LoopOutcome.finished)
    else (s, LoopOutcome.exhausted)
  | ev :: evs, s =>
    if cfg.inf = false ∧ (s.nDone : ℤ) = cfg.n then (s, LoopOutcome.finished)
    else
      match loopBody cfg ev s with
      | BodyOut.skip => runLoop cfg evs s
      | BodyOut.stepped s2 => runLoop cfg evs s2
      | BodyOut.crashed e => (s, LoopOutcome.crashed e)

/-- Modelled from the spec (§4.1): the priming `i.get_energy_simple()`
taken before `t0` is recorded establishes the accumulator baseline: no
energy accumulated yet, previous-acquisition time set to the priming
instant. -/
def primedState (t_prime : ℚ) : INA219State :=
  { e := 0, e_total := 0, last_t := t_prime }

/-- Loop state at `_n = 0`, right after the priming read: nothing printed
or written yet. -/
def initLoopState (t_prime : ℚ) : LoopState :=
  { ina := primedState t_prime, nDone := 0, termRows := [], fileWrites := [] }

/-- Everything printed to the terminal in a run: the metadata block and
the column-label row (lines 277-278), then the data rows. -/
def terminalOutput (cfg : RunCfg) (final : LoopState) : List String :=
  header_common cfg :: header_terminal cfg.units :: final.termRows

/-- The save file's content is the concatenation of the write calls; its
lines are the newline-separated pieces. -/
def splitOnChar (sep : Char) : List Char → List (List Char)
  | [] => [[]]
  | c :: rest =>
    if c = sep then [] :: splitOnChar sep rest
    else
      match splitOnChar sep rest with
      | [] => [[c]]
      | h :: t => (c :: h) :: t

def fileLines (s : LoopState) : List String :=
  (splitOnChar '\n' (String.join s.fileWrites).data).map String.mk

/-! ## Argument handling (`terminal.py` lines 140-232)

`getopt` and the Python numeric constructors are standard-library
collaborators; they are modelled here on the canonical input forms the
script's documentation uses (option and value as separate argv tokens,
plain decimal/hex literals).  The option loop itself (lines 152-227) is
translated branch by branch. -/

/-- The global `min_dt` (line 34): the 0.05 s minimum sample interval. -/
def min_dt : ℚ := 5/100

def digitsToNat (l : List Char) : ℕ :=
  l.foldl (fun acc c => acc * 10 + (c.toNat - 48)) 0

/-- Python `int(s)` on canonical decimal forms: optional sign then
digits.  (Whitespace, underscores and other accepted forms are outside
the inputs modelled.) -/
def pyParseInt (s : String) : Option ℤ :=
  match s.data with
  | [] => none
  | '-' :: rest =>
    if rest ≠ [] ∧ rest.all Char.isDigit then some (-(digitsToNat rest : ℤ)) else none
  | '+' :: rest =>
    if rest ≠ [] ∧ rest.all Char.isDigit then some ((digitsToNat rest : ℤ)) else none
  | l => if l ≠ [] ∧ l.all Char.isDigit then some ((digitsToNat l : ℤ)) else none

/-- The purely syntactic part of Python `float(s)` on plain decimal
forms `[+-]digits[.digits]`: sign, integer part, fraction value,
fraction length.  Exponent, `inf`/`nan` and whitespace forms are outside
the inputs modelled. -/
def pyFloatParts (s : String) : Option (Bool × ℕ × ℕ × ℕ) :=
  let sgn : Bool × List Char :=
    match s.data with
    | '-' :: r => (true, r)
    | '+' :: r => (false, r)
    | r => (false, r)
  match splitOnChar '.' sgn.2 with
  | [a] =>
    if a ≠ [] ∧ a.all Char.isDigit then some (sgn.1, digitsToNat a, 0, 0) else none
  | [a, b] =>
    if (a ++ b) ≠ [] ∧ a.all Char.isDigit ∧ b.all Char.isDigit then
      some (sgn.1, digitsToNat a, digitsToNat b, b.length)
    else none
  | _ => none

def pyParseFloat (s : String) : Option ℚ :=
  (pyFloatParts s).map (fun pr =>
    (cond pr.1 (-1) 1) * ((pr.2.1 : ℚ) + (pr.2.2.1 : ℚ) / (10 : ℚ) ^ pr.2.2.2))

def isHexDigitCh (c : Char) : Bool :=
  c.isDigit || ('a' ≤ c && c ≤ 'f') || ('A' ≤ c && c ≤ 'F')

def hexDigitVal (c : Char) : ℕ :=
  if c.isDigit then c.toNat - 48
  else if 'a' ≤ c ∧ c ≤ 'f' then c.toNat - 87
  else c.toNat - 55

def hexToNat (l : List Char) : ℕ :=
  l.foldl (fun acc c => acc * 16 + hexDigitVal c) 0

/-- Python `int(s, 16)`: optional sign, optional `0x`/`0X`, hex digits. -/
def pyParseHex (s : String) : Option ℤ :=
  let sgn : Bool × List Char :=
    match s.data with
    | '-' :: r => (true, r)
    | '+' :: r => (false, r)
    | r => (false, r)
  let l2 : List Char :=
    match sgn.2 with
    | '0' :: 'x' :: r => r
    | '0' :: 'X' :: r => r
    | r => r
  if l2 ≠ [] ∧ l2.all isHexDigitCh then
    some ((cond sgn.1 (-1) 1) * (hexToNat l2 : ℤ))
  else none

/-- The option tables of the `getopt` call (lines 142-146): `-h` takes no
value; every other short option and — because each long string ends in
`=` in the source — every long option, `--help` included, requires one.
The long form of `-g` is declared as `"g="`, so it is `--g`. -/
def shortNoArg : List String := ["-h"]

def shortWithArg : List String := ["-n", "-i", "-u", "-s", "-a", "-p", "-b", "-t", "-g"]

def longWithArg : List String :=
  ["--help", "--number", "--interval", "--units", "--save", "--address",
   "--port", "--baud", "--tx", "--g"]

def dashStart (s : String) : Bool :=
  match s.data with
  | '-' :: _ => true
  | _ => false

/-- Python `getopt.getopt` on argv lists where each option and its value
are separate tokens (the attached `-n4` / `--number=4` forms and long
option abbreviation are not modelled).  `none` is a `GetoptError`:
an unknown option, or a required value missing at the end.  A bare `-`,
a `--`, or any non-option token stops option processing; the script
ignores the positional remainder. -/
def getoptRun : List String → Option (List (String × String))
  | [] => some []
  | a :: rest =>
    if a = "--" then some []
    else if a ∈ shortNoArg then
      match getoptRun rest with
      | none => none
      | some os => some ((a, "") :: os)
    else if a ∈ shortWithArg ∨ a ∈ longWithArg then
      match rest with
      | [] => none
      | v :: rest2 =>
        match getoptRun rest2 with
        | none => none
        | some os => some ((a, v) :: os)
    else if dashStart a ∧ a ≠ "-" then none
    else some []

/-- The module-level variables the option loop mutates (lines 30-51):
defaults as in the source. -/
structure ParseState where
  inf : Bool
  n : ℤ
  dt : ℚ
  instanced : Bool
  units : String
  f_save : Bool
  graph : Bool
  graph_max : ℚ
  port_monitor : Bool
  port_tx : String
deriving DecidableEq

def initParseState : ParseState :=
  { inf := false, n := 4, dt := 1, instanced := false, units := "J",
    f_save := false, graph := false, graph_max := 50,
    port_monitor := false, port_tx := "" }

/-- How argument handling ended: either the config for the run, or a
process exit with the given exit code, recording whether the `usage()`
hint was printed.  `sys.exit()` with no argument exits with code 0; an
uncaught exception (`NameError`, `ValueError`) exits with code 1 and no
usage hint. -/
inductive ParseOutcome
  | proceed (st : ParseState)
  | exit (code : ℕ) (usageHinted : Bool)
deriving DecidableEq

/-- The `for opt, arg in opts` loop (lines 152-227), branch by branch in
source order.  `-u` reads `i.available_units`, but `i` exists only if a
`-a` branch already ran (`instanced`); otherwise the lookup raises an
uncaught `NameError`.  `-a` with a malformed hex value and `-g` with a
malformed float raise uncaught `ValueError`s.  `-b` has no branch of its
own; `-p` scans the whole option list for a baud option and opens the
serial port (the open itself is assumed to succeed).  `-s` opens the
save file (assumed to succeed) and sets `f_save`. -/
def optLoop (allOpts : List (String × String)) :
    List (String × String) → ParseState → ParseOutcome
  | [], st => ParseOutcome.proceed st
  | (opt, arg) :: rest, st =>
    if opt = "-h" ∨ opt = "--help" then ParseOutcome.exit 0 false
    else if opt = "-n" ∨ opt = "--number" then
      (if arg = "inf" then optLoop allOpts rest { st with inf := true }
      else
        match pyParseInt arg with
        | none => ParseOutcome.exit 0 true
        | some v =>
          optLoop allOpts rest { st with n := v, inf := if v < 1 then true else st.inf })
    else if opt = "-i" ∨ opt = "--interval" then
      (match pyParseFloat arg with
        | none => ParseOutcome.exit 0 true
        | some v =>
          if v < min_dt then ParseOutcome.exit 0 true
          else optLoop allOpts rest { st with dt := v })
    else if opt = "-a" ∨ opt = "--address" then
      (match pyParseHex arg with
        | none => ParseOutcome.exit 1 false
        | some _ => optLoop allOpts rest { st with instanced := true })
    else if opt = "-g" ∨ opt = "--g" then
      (match pyParseFloat arg with
        | none => ParseOutcome.exit 1 false
        | some v => optLoop allOpts rest { st with graph := true, graph_max := v })
    else if opt = "-p" ∨ opt = "--port" then
      (if allOpts.any (fun oa => oa.1 == "-b" || oa.1 == "--baud") then
        optLoop allOpts rest { st with port_monitor := true }
      else optLoop allOpts rest st)
    else if opt = "-t" ∨ opt = "--tx" then
      optLoop allOpts rest { st with port_tx := arg }
    else if opt = "-u" ∨ opt = "--units" then
      (if st.instanced = false then ParseOutcome.exit 1 false
      else if arg ∈ available_units then optLoop allOpts rest { st with units := arg }
      else ParseOutcome.exit 0 true)
    else if opt = "-s" ∨ opt = "--save" then
      optLoop allOpts rest { st with f_save := true }
    else optLoop allOpts rest st

/-- Argument handling end to end: a `GetoptError` prints
`"unknown argument passed"` and the usage hint and exits (code 0, from
the bare `sys.exit()`); otherwise the option loop runs over the parsed
pairs. -/
def parsePhase (argv : List String) : ParseOutcome :=
  match getoptRun argv with
  | none => ParseOutcome.exit 0 true
  | some opts => optLoop opts opts initParseState

/-- The run configuration assembled after the option loop (lines
229-283): `extras` and `t0` come from the environment (clock, paths). -/
def cfgOf (st : ParseState) (extras : String) (t0 : ℚ) : RunCfg :=
  { inf := st.inf, n := st.n, dt := st.dt, units := st.units,
    f_save := st.f_save, port_monitor := st.port_monitor, port_tx := st.port_tx,
    graph := st.graph, graph_max := st.graph_max, extras := extras, t0 := t0 }

/-- Observable outcome of a whole invocation: final exit code, whether
the usage hint was printed, and how many data rows reached the terminal
sink. -/
structure ProgramResult where
  exitCode : ℕ
  usageHinted : Bool
  termDataRows : ℕ
deriving DecidableEq

/-- A whole invocation: argument handling, then (if it proceeds) the
priming read, `t0`, and the sampling loop over the given event prefix.
A bare `sys.exit()` during argument handling and a completed or
event-exhausted loop exit with code 0; an uncaught exception exits with
code 1. -/
def program (argv : List String) (extras : String) (t_prime t0 : ℚ)
    (evs : List LoopEvent) : ProgramResult :=
  match parsePhase argv with
  | ParseOutcome.exit c u => { exitCode := c, usageHinted := u, termDataRows := 0 }
  | ParseOutcome.proceed st =>
    let r := runLoop (cfgOf st extras t0) evs (initLoopState t_prime)
    { exitCode := match r.2 with | LoopOutcome.crashed _ => 1 | _ => 0,
      usageHinted := false,
      termDataRows := r.1.termRows.length }

/-! ## Concrete runs used as witnesses and counterexamples -/

/-- A one-sample run with file saving enabled: `-n 1 -s data`, defaults
otherwise; a fixed timestamped path and `t0 = 0` stand in for the clock. -/
def cfgDemo : RunCfg :=
  { inf := false, n := 1, dt := 1, units := "J", f_save := true,
    port_monitor := false, port_tx := "",
    graph := false, graph_max := 50,
    extras := "Using default I2C address 0x40\nSaving to: data/2026_01_01_00_00_00_INA219.csv\n",
    t0 := 0 }

/-- An all-zero sensor reading at time 0. -/
def readingDemo : Reading := { bus_voltage := 0, i := 0, p := 0, t := 0 }

def evDemo : LoopEvent := { line := SerialLine.ok "", reading := readingDemo }

/-- A two-sample timer-paced run without saving: `-n 2`, defaults
otherwise. -/
def cfgTimer : RunCfg :=
  { inf := false, n := 2, dt := 1, units := "J", f_save := false,
    port_monitor := false, port_tx := "",
    graph := false, graph_max := 50,
    extras := "Using default I2C address 0x40\n", t0 := 0 }

/-- A serial-correlation run (`-p ... -b ...`): event-paced. -/
def cfgSerial : RunCfg :=
  { inf := false, n := 2, dt := 1, units := "J", f_save := false,
    port_monitor := true, port_tx := "",
    graph := false, graph_max := 50,
    extras := "Using default I2C address 0x40\nSerial port open: p @ b kbps\n", t0 := 0 }

/-! ## Lemmas and claim theorems -/

lemma runSamples_nil (u : String) (s : INA219State) : runSamples u s [] = s := rfl

lemma runSamples_cons (u : String) (s : INA219State) (pr : ℚ × ℚ) (l : List (ℚ × ℚ)) :
    runSamples u s (pr :: l) = runSamples u (get_energy_simple u pr.1 pr.2 s) l := rfl

lemma get_energy_simple_last_t (u : String) (p t : ℚ) (s : INA219State) :
    (get_energy_simple u p t s).last_t = t := rfl

lemma get_energy_simple_e_total (u : String) (p t : ℚ) (s : INA219State) :
    (get_energy_simple u p t s).e_total = s.e_total + instantEnergy u p (t - s.last_t) := rfl

lemma runSamples_e_total (u : String) :
    ∀ (l : List (ℚ × ℚ)) (s : INA219State),
      (runSamples u s l).e_total = s.e_total + (instEnergies u s.last_t l).sum
  | [], s => by simp [runSamples_nil, instEnergies]
  | pr :: rest, s => by
    rw [runSamples_cons, instEnergies, List.sum_cons,
      runSamples_e_total u rest (get_energy_simple u pr.1 pr.2 s),
      get_energy_simple_e_total, get_energy_simple_last_t]
    ring

lemma runSamples_last_t (u : String) :
    ∀ (l : List (ℚ × ℚ)) (s : INA219State),
      (runSamples u s l).last_t = (l.map Prod.snd).getLastD s.last_t
  | [], s => by simp [runSamples_nil]
  | pr :: rest, s => by
    rw [runSamples_cons, runSamples_last_t u rest, List.map_cons, List.getLastD_cons,
      get_energy_simple_last_t]

lemma instantEnergy_nonneg (u : String) (p d : ℚ) (hp : 0 ≤ p) (hd : 0 ≤ d) :
    0 ≤ instantEnergy u p d := by
  rw [instantEnergy]
  split_ifs
  · exact mul_nonneg hp hd
  · exact div_nonneg (mul_nonneg hp hd) (by norm_num)
  · exact div_nonneg hp (by norm_num)

lemma runSamples_mono (u : String) :
    ∀ (l : List (ℚ × ℚ)) (s : INA219State),
      (∀ pr ∈ l, 0 ≤ pr.1) → List.Chain (· ≤ ·) s.last_t (l.map Prod.snd) →
      s.e_total ≤ (runSamples u s l).e_total
  | [], s, _, _ => le_refl _
  | pr :: rest, s, hp, hc => by
    rw [List.map_cons, List.chain_cons] at hc
    rw [runSamples_cons]
    calc s.e_total ≤ (get_energy_simple u pr.1 pr.2 s).e_total := by
          rw [get_energy_simple_e_total]
          have := instantEnergy_nonneg u pr.1 (pr.2 - s.last_t)
            (hp pr (List.mem_cons_self pr rest)) (by linarith [hc.1])
          linarith
      _ ≤ (runSamples u (get_energy_simple u pr.1 pr.2 s) rest).e_total := by
          apply runSamples_mono u rest
          · intro x hx; exact hp x (List.mem_cons_of_mem pr hx)
          · rw [get_energy_simple_last_t]; exact hc.2

lemma chain_getLastD {α : Type} (R : α → α → Prop) :
    ∀ (l₁ : List α) (a : α) (l₂ : List α),
      List.Chain R a (l₁ ++ l₂) → List.Chain R (l₁.getLastD a) l₂
  | [], a, l₂, h => by simpa using h
  | x :: xs, a, l₂, h => by
    rw [List.cons_append, List.chain_cons] at h
    rw [List.getLastD_cons]
    exact chain_getLastD R xs x l₂ h.2

/-- C2: starting from the post-priming state (total = 0), the displayed
total energy after any number of samples equals the sum of the
per-sample instant energies over those samples (asserted for units other
than the instantaneous `kW` display mode), and the total is monotonically
non-decreasing along the run whenever all power readings are
non-negative (acquisition times are non-decreasing, as wall-clock times
are); it is reset only at process start (the fold starts from the fresh
state).  The driver is modelled from the spec (its module is not under
`src/`). -/
theorem e_total_is_sum_and_monotone (u : String) (hu : u ≠ "kW") (s0 : INA219State)
    (h0 : s0.e_total = 0) (pre suf : List (ℚ × ℚ))
    (hp : ∀ pr ∈ pre ++ suf, 0 ≤ pr.1)
    (hc : List.Chain (· ≤ ·) s0.last_t ((pre ++ suf).map Prod.snd)) :
    (runSamples u s0 (pre ++ suf)).e_total = (instEnergies u s0.last_t (pre ++ suf)).sum ∧
    (runSamples u s0 pre).e_total ≤ (runSamples u s0 (pre ++ suf)).e_total := by
  constructor
  · rw [runSamples_e_total, h0, zero_add]
  · have hsplit : runSamples u s0 (pre ++ suf) = runSamples u (runSamples u s0 pre) suf := by
      rw [runSamples, runSamples, runSamples, List.foldl_append]
    rw [hsplit]
    apply runSamples_mono u suf
    · intro x hx; exact hp x (List.mem_append_right pre hx)
    · rw [runSamples_last_t]
      apply chain_getLastD (· ≤ ·) (pre.map Prod.snd) s0.last_t (suf.map Prod.snd)
      rw [← List.map_append]
      exact hc

theorem e_total_is_sum_and_monotone_witness :
    ("J" : String) ≠ "kW" ∧
    ({ e := 0, e_total := 0, last_t := 0 } : INA219State).e_total = 0 ∧
    (∀ pr ∈ [((2 : ℚ), (1 : ℚ))] ++ [((3 : ℚ), (2 : ℚ))], 0 ≤ pr.1) ∧
    List.Chain (· ≤ ·) ({ e := 0, e_total := 0, last_t := 0 } : INA219State).last_t
      (([((2 : ℚ), (1 : ℚ))] ++ [((3 : ℚ), (2 : ℚ))]).map Prod.snd) ∧
    ((runSamples "J" { e := 0, e_total := 0, last_t := 0 }
        ([((2 : ℚ), (1 : ℚ))] ++ [((3 : ℚ), (2 : ℚ))])).e_total =
      (instEnergies "J" ({ e := 0, e_total := 0, last_t := 0 } : INA219State).last_t
        ([((2 : ℚ), (1 : ℚ))] ++ [((3 : ℚ), (2 : ℚ))])).sum ∧
    (runSamples "J" { e := 0, e_total := 0, last_t := 0 } [((2 : ℚ), (1 : ℚ))]).e_total ≤
      (runSamples "J" { e := 0, e_total := 0, last_t := 0 }
        ([((2 : ℚ), (1 : ℚ))] ++ [((3 : ℚ), (2 : ℚ))])).e_total) := by
  have hp : ∀ pr ∈ [((2 : ℚ), (1 : ℚ))] ++ [((3 : ℚ), (2 : ℚ))], 0 ≤ pr.1 := by
    intro pr hpr
    simp only [List.mem_append, List.mem_singleton] at hpr
    rcases hpr with h | h <;> subst h <;> norm_num
  have hc : List.Chain (· ≤ ·) ({ e := 0, e_total := 0, last_t := 0 } : INA219State).last_t
      (([((2 : ℚ), (1 : ℚ))] ++ [((3 : ℚ), (2 : ℚ))]).map Prod.snd) := by
    simp only [List.map_append, List.map_cons, List.map_nil, List.cons_append,
      List.nil_append, List.chain_cons, List.Chain.nil, and_true]
    norm_num
  exact ⟨by decide, rfl, hp, hc,
    e_total_is_sum_and_monotone "J" (by decide) _ rfl _ _ hp hc⟩

/-- C10: `plotter` is total only when `x_max ≠ x_min`: whenever the
overflow branch is not taken (`x ≤ x_max`) and `x_max = x_min`, the
unguarded division `(x - x_min) / (x_max - x_min)` raises
`ZeroDivisionError` instead of returning a string. -/
theorem plotter_unguarded_div (x m : ℚ) (chars : ℤ) (pc : Char) (h : x ≤ m) :
    plotter x m m chars pc = Except.error PyError.zeroDivisionError := by
  rw [plotter, if_neg (not_lt.mpr h), if_pos (sub_self m)]

theorem plotter_unguarded_div_witness :
    (3 : ℚ) ≤ 3 ∧ plotter 3 3 3 10 '=' = Except.error PyError.zeroDivisionError :=
  ⟨le_refl 3, plotter_unguarded_div 3 3 10 '=' (le_refl 3)⟩

/-- C6: on overflow (`x > x_max`, with `x_max` a non-negative integer as
in every documented call), `plotter` returns a fill of exactly `x_max`
characters rather than a `chars`-length bar. -/
theorem plotter_overflow (x x_max x_min : ℚ) (chars : ℤ) (pc : Char)
    (hgt : x > x_max) (hden : x_max.den = 1) (hnn : 0 ≤ x_max) :
    plotter x x_max x_min chars pc = Except.ok (strRep '#' x_max.num) ∧
    ((strRep '#' x_max.num).data.length : ℚ) = x_max := by
  constructor
  · rw [plotter, if_pos hgt, if_pos hden]
  · have hnum : (0 : ℤ) ≤ x_max.num := Rat.num_nonneg.mpr hnn
    have hx : ((x_max.num : ℤ) : ℚ) = x_max := (Rat.den_eq_one_iff x_max).mp hden
    simp only [strRep, String.data, List.length_replicate]
    rw [show ((x_max.num.toNat : ℕ) : ℚ) = ((x_max.num : ℤ) : ℚ) by
      exact_mod_cast Int.toNat_of_nonneg hnum]
    exact hx

theorem plotter_overflow_witness :
    (15 : ℚ) > 10 ∧ (10 : ℚ).den = 1 ∧ (0 : ℚ) ≤ 10 ∧
    plotter 15 10 0 10 '=' = Except.ok "##########" := by
  have hden : (10 : ℚ).den = 1 := by norm_num
  have h := plotter_overflow 15 10 0 10 '=' (by norm_num) hden (by norm_num)
  refine ⟨by norm_num, hden, by norm_num, ?_⟩
  rw [h.1]
  rw [show (10 : ℚ).num = 10 by norm_num]
  exact congrArg Except.ok (by decide)

/-- C5 counterexample: the fill width is Python `int()` truncation, not
rounding.  At `plotter(x=2, xMax=3, xMin=0, chars=10)` the ratio is
20/3 ≈ 6.67: the code emits 6 fill characters where the spec's
`round(...)` formula (`plotterSpec`) gives 7. -/
theorem plotter_round_cex :
    plotter 2 3 0 10 '=' = Except.ok "======    " ∧
    plotterSpec 2 3 0 10 = "=======   " ∧
    ("======    " : String) ≠ "=======   " := by
  have ha : pyTrunc ((2 - 0) / ((3 : ℚ) - 0) * 10) = 6 := by
    rw [pyTrunc, if_pos (by norm_num)]
    norm_num [Int.floor_eq_iff]
  have hb : round ((2 - 0) / ((3 : ℚ) - 0) * 10) = 7 := by
    norm_num [round_eq, Int.floor_eq_iff]
  refine ⟨?_, ?_, by decide⟩
  · rw [plotter, if_neg (by norm_num), if_neg (by norm_num)]
    show Except.ok (strRep '=' (pyTrunc ((2 - 0) / ((3 : ℚ) - 0) * 10)) ++
      strRep ' ' (10 - pyTrunc ((2 - 0) / ((3 : ℚ) - 0) * 10))) = _
    rw [ha]
    exact congrArg Except.ok (by decide)
  · rw [plotterSpec]
    show strRep '=' (round ((2 - 0) / ((3 : ℚ) - 0) * 10)) ++
      strRep ' ' (10 - round ((2 - 0) / ((3 : ℚ) - 0) * 10)) = _
    rw [hb]
    decide

/-- C5 amended: for `xMin ≤ x ≤ xMax` with `xMin < xMax` and a
non-negative character budget, `plotter` returns a string of exactly
`chars` characters: a fill of `int((x - xMin)/(xMax - xMin) * chars)`
(truncation toward zero, not `round`) bar characters, space-padded to
`chars`; in particular `plotter(5, 10, 0, 10)` is five fills then five
spaces.  (`x < xMin` would overflow the width and `xMax = xMin` raises —
see the C10 theorem — so both are excluded here.) -/
theorem plotter_truncation (x x_max x_min : ℚ) (chars : ℤ)
    (h1 : x_min ≤ x) (h2 : x ≤ x_max) (h3 : x_min < x_max) (h4 : 0 ≤ chars) :
    (∃ a : ℤ, a = pyTrunc ((x - x_min) / (x_max - x_min) * chars) ∧ 0 ≤ a ∧ a ≤ chars ∧
      plotter x x_max x_min chars '=' = Except.ok (strRep '=' a ++ strRep ' ' (chars - a)) ∧
      (strRep '=' a ++ strRep ' ' (chars - a)).data.length = chars.toNat) ∧
    plotter 5 10 0 10 '=' = Except.ok "=====     " := by
  constructor
  · have hd : (0 : ℚ) < x_max - x_min := by linarith
    have hratio1 : (x - x_min) / (x_max - x_min) ≤ 1 := by
      rw [div_le_one hd]; linarith
    have hratio0 : (0 : ℚ) ≤ (x - x_min) / (x_max - x_min) :=
      div_nonneg (by linarith) (le_of_lt hd)
    have hq0 : 0 ≤ (x - x_min) / (x_max - x_min) * chars :=
      mul_nonneg hratio0 (by exact_mod_cast h4)
    have hqc : (x - x_min) / (x_max - x_min) * chars ≤ (chars : ℚ) := by
      calc (x - x_min) / (x_max - x_min) * chars ≤ 1 * chars :=
            mul_le_mul_of_nonneg_right hratio1 (by exact_mod_cast h4)
        _ = (chars : ℚ) := one_mul _
    have htr : pyTrunc ((x - x_min) / (x_max - x_min) * chars) =
        ⌊(x - x_min) / (x_max - x_min) * chars⌋ := by
      rw [pyTrunc, if_pos hq0]
    have h0 : 0 ≤ pyTrunc ((x - x_min) / (x_max - x_min) * chars) := by
      rw [htr]; exact Int.floor_nonneg.mpr hq0
    have hc : pyTrunc ((x - x_min) / (x_max - x_min) * chars) ≤ chars := by
      rw [htr]
      calc ⌊(x - x_min) / (x_max - x_min) * chars⌋ ≤ ⌊(chars : ℚ)⌋ :=
            Int.floor_le_floor hqc
        _ = chars := Int.floor_intCast chars
    refine ⟨pyTrunc ((x - x_min) / (x_max - x_min) * chars), rfl, h0, hc, ?_, ?_⟩
    · rw [plotter, if_neg (not_lt.mpr h2), if_neg (ne_of_gt hd)]
    · simp only [strRep, String.data_append, List.length_append, List.length_replicate]
      omega
  · have ha : pyTrunc ((5 - 0) / ((10 : ℚ) - 0) * 10) = 5 := by
      rw [pyTrunc, if_pos (by norm_num)]
      norm_num [Int.floor_eq_iff]
    rw [plotter, if_neg (by norm_num), if_neg (by norm_num)]
    show Except.ok (strRep '=' (pyTrunc ((5 - 0) / ((10 : ℚ) - 0) * 10)) ++
      strRep ' ' (10 - pyTrunc ((5 - 0) / ((10 : ℚ) - 0) * 10))) = _
    rw [ha]
    exact congrArg Except.ok (by decide)

theorem plotter_truncation_witness :
    (0 : ℚ) ≤ 5 ∧ (5 : ℚ) ≤ 10 ∧ (0 : ℚ) < 10 ∧ (0 : ℤ) ≤ 10 ∧
    plotter 5 10 0 10 '=' = Except.ok "=====     " :=
  ⟨by norm_num, by norm_num, by norm_num, by decide,
    (plotter_truncation 5 10 0 10 (by norm_num) (by norm_num) (by norm_num) (by decide)).2⟩

lemma loopBody_timer (cfg : RunCfg) (hpm : cfg.port_monitor = false) (hg : cfg.graph = false)
    (ev : LoopEvent) (s : LoopState) :
    loopBody cfg ev s = BodyOut.stepped (stepState cfg ev
      (terminalRowCore ev.reading (ev.reading.t - cfg.t0)
        (get_energy_simple cfg.units ev.reading.p ev.reading.t s.ina).e
        (get_energy_simple cfg.units ev.reading.p ev.reading.t s.ina).e_total)
      (fileDelta cfg s.nDone
        (csvRow ev.reading (ev.reading.t - cfg.t0)
          (get_energy_simple cfg.units ev.reading.p ev.reading.t s.ina).e
          (get_energy_simple cfg.units ev.reading.p ev.reading.t s.ina).e_total))
      s) := by
  simp only [loopBody, hpm, hg]
  rfl

lemma runLoop_done (cfg : RunCfg) (evs : List LoopEvent) (s : LoopState)
    (h : cfg.inf = false ∧ (s.nDone : ℤ) = cfg.n) :
    runLoop cfg evs s = (s, LoopOutcome.finished) := by
  cases evs
  · simp only [runLoop]; rw [if_pos h]
  · simp only [runLoop]; rw [if_pos h]

lemma runLoop_timer (cfg : RunCfg) (n : ℕ)
    (hinf : cfg.inf = false) (hn : cfg.n = (n : ℤ))
    (hpm : cfg.port_monitor = false) (hg : cfg.graph = false) :
    ∀ (evs : List LoopEvent) (s : LoopState),
      s.nDone ≤ n → n - s.nDone ≤ evs.length →
      ∃ s2, runLoop cfg evs s = (s2, LoopOutcome.finished) ∧
        s2.nDone = n ∧
        s2.termRows.length = s.termRows.length + (n - s.nDone) ∧
        ∃ ds, s2.fileWrites = s.fileWrites ++ ds ∧
          (cfg.f_save = true → 1 ≤ s.nDone →
            ds.length = n - s.nDone ∧
            ∀ w ∈ ds, ∃ r te e et, w = csvRow r te e et ++ "\n")
  | [], s, hle, hlen => by
    simp only [List.length_nil] at hlen
    have heq : s.nDone = n := by omega
    have hcond : cfg.inf = false ∧ (s.nDone : ℤ) = cfg.n := ⟨hinf, by rw [hn, heq]⟩
    have hz : n - s.nDone = 0 := by omega
    refine ⟨s, runLoop_done cfg [] s hcond, heq, by rw [hz, Nat.add_zero], [],
        (List.append_nil _).symm, ?_⟩
    intro _ _
    exact ⟨by rw [hz, List.length_nil], by intro w hw; simp at hw⟩
  | ev :: evs, s, hle, hlen => by
    by_cases hdone : s.nDone = n
    · have hcond : cfg.inf = false ∧ (s.nDone : ℤ) = cfg.n := ⟨hinf, by rw [hn, hdone]⟩
      have hz : n - s.nDone = 0 := by omega
      refine ⟨s, runLoop_done cfg (ev :: evs) s hcond, hdone, by rw [hz, Nat.add_zero], [],
        (List.append_nil _).symm, ?_⟩
      intro _ _
      exact ⟨by rw [hz, List.length_nil], by intro w hw; simp at hw⟩
    · have hlt : s.nDone < n := lt_of_le_of_ne hle hdone
      have hcond : ¬(cfg.inf = false ∧ (s.nDone : ℤ) = cfg.n) := by
        rintro ⟨-, h⟩
        rw [hn] at h
        exact hdone (by exact_mod_cast h)
      simp only [List.length_cons] at hlen
      have hstep := loopBody_timer cfg hpm hg ev s
      obtain ⟨s2, hrun, hn2, hterm, ds', hfw, hds⟩ :=
        runLoop_timer cfg n hinf hn hpm hg evs
          (stepState cfg ev
            (terminalRowCore ev.reading (ev.reading.t - cfg.t0)
              (get_energy_simple cfg.units ev.reading.p ev.reading.t s.ina).e
              (get_energy_simple cfg.units ev.reading.p ev.reading.t s.ina).e_total)
            (fileDelta cfg s.nDone
              (csvRow ev.reading (ev.reading.t - cfg.t0)
                (get_energy_simple cfg.units ev.reading.p ev.reading.t s.ina).e
                (get_energy_simple cfg.units ev.reading.p ev.reading.t s.ina).e_total))
            s)
          (by simp only [stepState]; omega)
          (by simp only [stepState]; omega)
      refine ⟨s2, ?_, hn2, ?_, ?_⟩
      · simp only [runLoop]
        rw [if_neg hcond, hstep]
        exact hrun
      · simp only [stepState, List.length_append, List.length_cons, List.length_nil] at hterm
        omega
      · refine ⟨fileDelta cfg s.nDone
          (csvRow ev.reading (ev.reading.t - cfg.t0)
            (get_energy_simple cfg.units ev.reading.p ev.reading.t s.ina).e
            (get_energy_simple cfg.units ev.reading.p ev.reading.t s.ina).e_total) ++ ds', ?_, ?_⟩
        · rw [hfw]
          simp only [stepState]
          rw [List.append_assoc]
        · intro hsave hge1
          have hne0 : ¬(s.nDone = 0) := by omega
          have hfd : fileDelta cfg s.nDone
              (csvRow ev.reading (ev.reading.t - cfg.t0)
                (get_energy_simple cfg.units ev.reading.p ev.reading.t s.ina).e
                (get_energy_simple cfg.units ev.reading.p ev.reading.t s.ina).e_total) =
              [csvRow ev.reading (ev.reading.t - cfg.t0)
                (get_energy_simple cfg.units ev.reading.p ev.reading.t s.ina).e
                (get_energy_simple cfg.units ev.reading.p ev.reading.t s.ina).e_total ++ "\n"] := by
            rw [fileDelta, if_pos hsave, if_neg hne0, List.nil_append]
          obtain ⟨hlen', hmem'⟩ := hds hsave (by simp only [stepState]; omega)
          constructor
          · rw [hfd]
            simp only [List.length_append, List.length_cons, List.length_nil]
            simp only [stepState] at hlen'
            omega
          · intro w hw
            rw [hfd] at hw
            rcases List.mem_append.mp hw with hw1 | hw2
            · rcases List.mem_singleton.mp hw1 with rfl
              exact ⟨ev.reading, ev.reading.t - cfg.t0,
                (get_energy_simple cfg.units ev.reading.p ev.reading.t s.ina).e,
                (get_energy_simple cfg.units ev.reading.p ev.reading.t s.ina).e_total, rfl⟩
            · exact hmem' w hw2

/-- C1: in a timer-paced run (graph display off) with a finite
configured count `N ≥ 1` and enough modelled iterations, the sampling
loop breaks via the count check having printed exactly `N` data rows to
the terminal; the priming read happens before the loop and prints
nothing (the terminal output is the two header lines followed by the
data rows alone). -/
theorem loop_emits_exactly_n_rows (cfg : RunCfg) (n : ℕ) (t_prime : ℚ)
    (evs : List LoopEvent)
    (hinf : cfg.inf = false) (hn : cfg.n = (n : ℤ)) (hone : 1 ≤ n)
    (hpm : cfg.port_monitor = false) (hg : cfg.graph = false)
    (hlen : n ≤ evs.length) :
    ∃ s2, runLoop cfg evs (initLoopState t_prime) = (s2, LoopOutcome.finished) ∧
      s2.termRows.length = n ∧
      terminalOutput cfg s2 = header_common cfg :: header_terminal cfg.units :: s2.termRows := by
  obtain ⟨s2, h1, _, h3, _⟩ :=
    runLoop_timer cfg n hinf hn hpm hg evs (initLoopState t_prime)
      (by simp [initLoopState]) (by simpa [initLoopState] using hlen)
  refine ⟨s2, h1, ?_, rfl⟩
  simpa [initLoopState] using h3

theorem loop_emits_exactly_n_rows_witness :
    cfgTimer.inf = false ∧ cfgTimer.n = ((2 : ℕ) : ℤ) ∧ 1 ≤ 2 ∧
    cfgTimer.port_monitor = false ∧ cfgTimer.graph = false ∧
    2 ≤ [evDemo, evDemo, evDemo].length ∧
    (∃ s2, runLoop cfgTimer [evDemo, evDemo, evDemo] (initLoopState 0) =
        (s2, LoopOutcome.finished) ∧
      s2.termRows.length = 2 ∧
      terminalOutput cfgTimer s2 =
        header_common cfgTimer :: header_terminal cfgTimer.units :: s2.termRows) :=
  ⟨rfl, rfl, by omega, rfl, rfl, by simp,
    loop_emits_exactly_n_rows cfgTimer 2 0 [evDemo, evDemo, evDemo]
      rfl rfl (by omega) rfl rfl (by simp)⟩

/-- C7: in event-paced (serial correlation) mode, an inbound line whose
decode fails makes the body take the `continue`: the iteration is
skipped with the state untouched (counter not advanced, no sensor read,
energy accumulator unchanged, nothing printed or written), the loop does
not terminate on it, and the run is exactly the run on the remaining
lines. -/
theorem serial_decode_error_skips (cfg : RunCfg) (r : Reading) (evs : List LoopEvent)
    (s : LoopState) (hpm : cfg.port_monitor = true) :
    loopBody cfg { line := SerialLine.malformed, reading := r } s = BodyOut.skip ∧
    runLoop cfg ({ line := SerialLine.malformed, reading := r } :: evs) s =
      runLoop cfg evs s := by
  have hb : loopBody cfg { line := SerialLine.malformed, reading := r } s = BodyOut.skip := by
    simp only [loopBody, hpm]
    rfl
  refine ⟨hb, ?_⟩
  by_cases hd : cfg.inf = false ∧ (s.nDone : ℤ) = cfg.n
  · rw [runLoop_done cfg evs s hd, runLoop_done cfg _ s hd]
  · simp only [runLoop]
    rw [if_neg hd, hb]

theorem serial_decode_error_skips_witness :
    cfgSerial.port_monitor = true ∧
    (loopBody cfgSerial { line := SerialLine.malformed, reading := readingDemo }
        (initLoopState 0) = BodyOut.skip ∧
      runLoop cfgSerial ({ line := SerialLine.malformed, reading := readingDemo } :: [evDemo])
          (initLoopState 0) =
        runLoop cfgSerial [evDemo] (initLoopState 0)) :=
  ⟨rfl, serial_decode_error_skips cfgSerial readingDemo [evDemo] (initLoopState 0) rfl⟩

/-- C4 amended: in a timer-paced saving run with finite `N ≥ 1`, the
save file's write sequence starts with the metadata header block
(identical in content to the terminal's, which receives the same
`header_common` string) and then the CSV column-label row `header_save`,
each written exactly once, before the first data row: every later write
is a CSV data row, and there are exactly `N` of them.  (The metadata
block spans several lines and `header_save` differs from the terminal's
column-label row beyond alignment padding — see the counterexample —
which is what this amends in the original claim.) -/
theorem file_header_once (cfg : RunCfg) (n : ℕ) (t_prime : ℚ) (evs : List LoopEvent)
    (hinf : cfg.inf = false) (hn : cfg.n = (n : ℤ)) (hone : 1 ≤ n)
    (hpm : cfg.port_monitor = false) (hg : cfg.graph = false)
    (hsave : cfg.f_save = true) (hlen : n ≤ evs.length) :
    ∃ s2 rows, runLoop cfg evs (initLoopState t_prime) = (s2, LoopOutcome.finished) ∧
      s2.fileWrites = (header_common cfg ++ "\n") :: (header_save cfg.units ++ "\n") :: rows ∧
      rows.length = n ∧
      (∀ w ∈ rows, ∃ r te e et, w = csvRow r te e et ++ "\n") ∧
      terminalOutput cfg s2 = header_common cfg :: header_terminal cfg.units :: s2.termRows ∧
      s2.termRows.length = n := by
  obtain ⟨e1, rest, rfl⟩ : ∃ e1 rest, evs = e1 :: rest := by
    cases evs with
    | nil => simp at hlen; omega
    | cons e1 rest => exact ⟨e1, rest, rfl⟩
  have hcond : ¬(cfg.inf = false ∧ (((initLoopState t_prime).nDone : ℕ) : ℤ) = cfg.n) := by
    rintro ⟨-, h⟩
    simp only [initLoopState] at h
    rw [hn] at h
    omega
  have hstep := loopBody_timer cfg hpm hg e1 (initLoopState t_prime)
  set s1 := stepState cfg e1
    (terminalRowCore e1.reading (e1.reading.t - cfg.t0)
      (get_energy_simple cfg.units e1.reading.p e1.reading.t (initLoopState t_prime).ina).e
      (get_energy_simple cfg.units e1.reading.p e1.reading.t (initLoopState t_prime).ina).e_total)
    (fileDelta cfg (initLoopState t_prime).nDone
      (csvRow e1.reading (e1.reading.t - cfg.t0)
        (get_energy_simple cfg.units e1.reading.p e1.reading.t (initLoopState t_prime).ina).e
        (get_energy_simple cfg.units e1.reading.p e1.reading.t
          (initLoopState t_prime).ina).e_total))
    (initLoopState t_prime) with hs1
  obtain ⟨s2, hrun, hn2, hterm, ds', hfw, hds⟩ :=
    runLoop_timer cfg n hinf hn hpm hg rest s1
      (by rw [hs1]; simp only [stepState, initLoopState]; omega)
      (by rw [hs1]; simp only [stepState, initLoopState]
          simp only [List.length_cons] at hlen; omega)
  have hcsv1 : fileDelta cfg (initLoopState t_prime).nDone
      (csvRow e1.reading (e1.reading.t - cfg.t0)
        (get_energy_simple cfg.units e1.reading.p e1.reading.t (initLoopState t_prime).ina).e
        (get_energy_simple cfg.units e1.reading.p e1.reading.t
          (initLoopState t_prime).ina).e_total) =
      [header_common cfg ++ "\n", header_save cfg.units ++ "\n",
        csvRow e1.reading (e1.reading.t - cfg.t0)
          (get_energy_simple cfg.units e1.reading.p e1.reading.t (initLoopState t_prime).ina).e
          (get_energy_simple cfg.units e1.reading.p e1.reading.t
            (initLoopState t_prime).ina).e_total ++ "\n"] := by
    rw [fileDelta, if_pos hsave]
    rfl
  obtain ⟨hds1, hds2⟩ := hds hsave (by rw [hs1]; simp only [stepState, initLoopState]; omega)
  refine ⟨s2, (csvRow e1.reading (e1.reading.t - cfg.t0)
      (get_energy_simple cfg.units e1.reading.p e1.reading.t (initLoopState t_prime).ina).e
      (get_energy_simple cfg.units e1.reading.p e1.reading.t
        (initLoopState t_prime).ina).e_total ++ "\n") :: ds', ?_, ?_, ?_, ?_, rfl, ?_⟩
  · simp only [runLoop]
    rw [if_neg hcond, hstep]
    exact hrun
  · rw [hfw, hs1]
    simp only [stepState]
    rw [hcsv1]
    simp [initLoopState]
  · simp only [List.length_cons]
    rw [hds1, hs1]
    simp only [stepState, initLoopState]
    omega
  · intro w hw
    rcases List.mem_cons.mp hw with rfl | hw2
    · exact ⟨e1.reading, e1.reading.t - cfg.t0, _, _, rfl⟩
    · exact hds2 w hw2
  · rw [hterm, hs1]
    simp only [stepState, initLoopState, List.length_append, List.length_cons,
      List.length_nil]
    omega

theorem file_header_once_witness :
    cfgDemo.inf = false ∧ cfgDemo.n = ((1 : ℕ) : ℤ) ∧ 1 ≤ 1 ∧
    cfgDemo.port_monitor = false ∧ cfgDemo.graph = false ∧
    cfgDemo.f_save = true ∧ 1 ≤ [evDemo].length ∧
    (∃ s2 rows, runLoop cfgDemo [evDemo] (initLoopState 0) = (s2, LoopOutcome.finished) ∧
      s2.fileWrites =
        (header_common cfgDemo ++ "\n") :: (header_save cfgDemo.units ++ "\n") :: rows ∧
      rows.length = 1 ∧
      (∀ w ∈ rows, ∃ r te e et, w = csvRow r te e et ++ "\n") ∧
      terminalOutput cfgDemo s2 =
        header_common cfgDemo :: header_terminal cfgDemo.units :: s2.termRows ∧
      s2.termRows.length = 1) :=
  ⟨rfl, rfl, le_refl 1, rfl, rfl, rfl, by simp,
    file_header_once cfgDemo 1 0 [evDemo] rfl rfl (le_refl 1) rfl rfl rfl (by simp)⟩

lemma pyParseFloat_001 : pyParseFloat "0.01" = some (1/100) := by
  have hparts : pyFloatParts "0.01" = some (false, 0, 1, 2) := by decide
  rw [pyParseFloat, hparts]
  simp only [Option.map]
  norm_num

lemma hundredth_lt_min_dt : (1/100 : ℚ) < min_dt := by
  rw [min_dt]; norm_num

/-- C3 counterexample: a validation failure does not exit non-zero.  The
below-minimum interval `-i 0.01` prints the message and the usage hint
and then calls `sys.exit()` with no argument, which is exit code 0 —
refuting the claimed non-zero exit code (the same bare `sys.exit()` is
used on every parse failure path). -/
theorem parse_failure_exit_code_cex :
    parsePhase ["-i", "0.01"] = ParseOutcome.exit 0 true ∧
    ¬ ∃ c hint, parsePhase ["-i", "0.01"] = ParseOutcome.exit c hint ∧ c ≠ 0 := by
  have h1 : parsePhase ["-i", "0.01"] = ParseOutcome.exit 0 true := by
    simp [parsePhase, getoptRun, shortNoArg, shortWithArg, longWithArg, optLoop,
      pyParseFloat_001]
    norm_num [min_dt]
  refine ⟨h1, ?_⟩
  rintro ⟨c, hint, he, hc⟩
  rw [h1] at he
  simp only [ParseOutcome.exit.injEq] at he
  exact hc he.1.symm

/-- C3 amended: every modelled argument parse or validation failure
(unknown flag, malformed `-n` integer, `-i` interval below the 0.05 s
minimum) prints the usage hint and exits — with exit code 0 from the
bare `sys.exit()`, not the claimed non-zero code — before any data row
is produced (the exit happens during argument handling, so the sampling
loop never runs); help exits 0 without the usage hint, and a completed
run whose loop does not crash also exits 0. -/
theorem parse_failure_exits_before_rows :
    (∀ argv, getoptRun argv = none → parsePhase argv = ParseOutcome.exit 0 true) ∧
    (∀ a, pyParseInt a = none → a ≠ "inf" →
      parsePhase ["-n", a] = ParseOutcome.exit 0 true) ∧
    (∀ a v, pyParseFloat a = some v → v < min_dt →
      parsePhase ["-i", a] = ParseOutcome.exit 0 true) ∧
    parsePhase ["-h"] = ParseOutcome.exit 0 false ∧
    (∀ argv extras t_prime t0 evs c hint, parsePhase argv = ParseOutcome.exit c hint →
      program argv extras t_prime t0 evs =
        { exitCode := c, usageHinted := hint, termDataRows := 0 }) ∧
    (∀ argv st extras t_prime t0 evs, parsePhase argv = ParseOutcome.proceed st →
      (∀ e, (runLoop (cfgOf st extras t0) evs (initLoopState t_prime)).2 ≠
        LoopOutcome.crashed e) →
      (program argv extras t_prime t0 evs).exitCode = 0) := by
  refine ⟨?_, ?_, ?_, by decide, ?_, ?_⟩
  · intro argv h
    simp [parsePhase, h]
  · intro a h h2
    simp [parsePhase, getoptRun, shortNoArg, shortWithArg, longWithArg, optLoop, h, h2]
  · intro a v h hv
    simp [parsePhase, getoptRun, shortNoArg, shortWithArg, longWithArg, optLoop, h, hv]
  · intro argv extras t_prime t0 evs c hint h
    simp [program, h]
  · intro argv st extras t_prime t0 evs hp hnc
    simp only [program, hp]

theorem parse_failure_exits_before_rows_witness :
    getoptRun ["--frobnicate"] = none ∧
    parsePhase ["--frobnicate"] = ParseOutcome.exit 0 true ∧
    pyParseInt "4x" = none ∧ ("4x" : String) ≠ "inf" ∧
    parsePhase ["-n", "4x"] = ParseOutcome.exit 0 true ∧
    pyParseFloat "0.01" = some (1/100) ∧ (1/100 : ℚ) < min_dt ∧
    parsePhase ["-i", "0.01"] = ParseOutcome.exit 0 true ∧
    program ["-n", "4x"] "" 0 0 [] =
      { exitCode := 0, usageHinted := true, termDataRows := 0 } :=
  ⟨by decide,
    parse_failure_exits_before_rows.1 ["--frobnicate"] (by decide),
    by decide, by decide,
    parse_failure_exits_before_rows.2.1 "4x" (by decide) (by decide),
    pyParseFloat_001, hundredth_lt_min_dt,
    parse_failure_exits_before_rows.2.2.1 "0.01" (1/100) pyParseFloat_001 hundredth_lt_min_dt,
    parse_failure_exits_before_rows.2.2.2.2.1 ["-n", "4x"] "" 0 0 [] 0 true
      (parse_failure_exits_before_rows.2.1 "4x" (by decide) (by decide))⟩

/-- C9 counterexample: with `-u` supplied and no preceding `-a`, the
units handler evaluates `i.available_units` before `i` exists, raising
an uncaught `NameError`: the process exits with code 1 and a traceback,
with no short message and no usage hint — refuting "regardless of the
order or presence of the other flags". -/
theorem units_error_order_cex :
    parsePhase ["-u", "X"] = ParseOutcome.exit 1 false ∧
    ¬ ∃ c, parsePhase ["-u", "X"] = ParseOutcome.exit c true := by
  have h1 : parsePhase ["-u", "X"] = ParseOutcome.exit 1 false := by decide
  refine ⟨h1, ?_⟩
  rintro ⟨c, he⟩
  rw [h1] at he
  simp only [ParseOutcome.exit.injEq] at he
  exact Bool.false_ne_true he.2

/-- C9 amended: the units check depends on option order, because it
reads `i.available_units`.  When a valid `-a` precedes `-u`, a unit
outside `{J, Wh, kW}` prints the short message and the usage hint and
exits (code 0) before any sampling; when no `-a` precedes it, `-u`
raises an uncaught `NameError` for any value — still exiting before any
sampling, but with exit code 1 and no usage hint. -/
theorem units_error_amended :
    (∀ aval addr uval, pyParseHex aval = some addr → uval ∉ available_units →
      parsePhase ["-a", aval, "-u", uval] = ParseOutcome.exit 0 true) ∧
    (∀ uval, parsePhase ["-u", uval] = ParseOutcome.exit 1 false) := by
  constructor
  · intro aval addr uval ha hu
    simp [parsePhase, getoptRun, shortNoArg, shortWithArg, longWithArg, optLoop,
      initParseState, ha, hu]
  · intro uval
    simp [parsePhase, getoptRun, shortNoArg, shortWithArg, longWithArg, optLoop,
      initParseState]

theorem units_error_amended_witness :
    pyParseHex "0x40" = some 64 ∧ ("X" : String) ∉ available_units ∧
    parsePhase ["-a", "0x40", "-u", "X"] = ParseOutcome.exit 0 true ∧
    parsePhase ["-u", "J"] = ParseOutcome.exit 1 false :=
  ⟨by decide, by decide,
    units_error_amended.1 "0x40" 64 "X" (by decide) (by decide),
    units_error_amended.2 "J"⟩

lemma ges_zero : get_energy_simple "J" 0 0 (primedState 0) =
    { e := 0, e_total := 0, last_t := 0 } := by
  norm_num [get_energy_simple, primedState, instantEnergy]

lemma formatFixed3_zero : formatFixed 3 0 = "0.000" := by
  simp only [formatFixed]
  norm_num
  decide

lemma formatFixed5_zero : formatFixed 5 0 = "0.00000" := by
  simp only [formatFixed]
  norm_num
  decide

lemma strFloat_one : strFloat 1 = "1.0" := by
  simp only [strFloat]
  norm_num
  decide

set_option maxRecDepth 10000 in
lemma header_common_demo :
    header_common cfgDemo =
      "INA219 Voltage, Power & Energy Measurement\nUsing default I2C address 0x40\nSaving to: data/2026_01_01_00_00_00_INA219.csv\nNumber of samples = 1\nSample interval = 1.0 s\nSamples collected in 1.0 s\nEnergy units = J\n--------------------------------------------------------------------------" := by
  simp only [header_common, dt_header, t_total, cfgDemo]
  norm_num
  rw [strFloat_one]
  decide

set_option maxRecDepth 10000 in
lemma csvRow_demo :
    csvRow readingDemo 0 0 0 = "0.000,0.000,0.00000,0.00000,0.00000,0.00000,0.00000" := by
  simp only [csvRow, readingDemo]
  rw [formatFixed3_zero, formatFixed5_zero]
  decide


set_option maxRecDepth 10000 in
lemma fileWrites_demo :
    (runLoop cfgDemo [evDemo] (initLoopState 0)).1.fileWrites =
      ["INA219 Voltage, Power & Energy Measurement\nUsing default I2C address 0x40\nSaving to: data/2026_01_01_00_00_00_INA219.csv\nNumber of samples = 1\nSample interval = 1.0 s\nSamples collected in 1.0 s\nEnergy units = J\n--------------------------------------------------------------------------\n",
       "unix_time_s,elapsed_time_s,bus_voltage_V,shunt_current_A,power_W,sample_energy_Jtotal_energy_J\n",
       "0.000,0.000,0.00000,0.00000,0.00000,0.00000,0.00000\n"] := by
  have hstep := loopBody_timer cfgDemo rfl rfl evDemo (initLoopState 0)
  simp only [runLoop, hstep]
  rw [if_neg (by decide), if_pos (by decide)]
  simp only [stepState, initLoopState, fileDelta]
  rw [show cfgDemo.units = "J" from rfl, show cfgDemo.t0 = 0 from rfl,
      show evDemo.reading = readingDemo from rfl,
      show readingDemo.p = 0 from rfl, show readingDemo.t = 0 from rfl,
      show (0 : ℚ) - 0 = 0 by norm_num, ges_zero]
  rw [if_pos (show cfgDemo.f_save = true from rfl), if_pos trivial]
  rw [show ({ e := 0, e_total := 0, last_t := 0 } : INA219State).e = 0 from rfl,
      show ({ e := 0, e_total := 0, last_t := 0 } : INA219State).e_total = 0 from rfl]
  rw [csvRow_demo, header_common_demo]
  decide

set_option maxRecDepth 10000 in
/-- C4 counterexample: in a concrete saving run, the file's second line
is still part of the metadata block ("Using default I2C address 0x40"),
not the column-label row — `header_common` spans several lines, so "the
file's first two lines are the metadata header block and the column-label
row" fails; moreover the CSV label row `header_save` differs from the
terminal's beyond alignment padding: it has 6 comma-separated label
fields against the 7 value fields of every data row (a comma is missing
between the sample-energy and total-energy labels). -/
theorem file_first_two_lines_cex :
    (fileLines (runLoop cfgDemo [evDemo] (initLoopState 0)).1).get? 1 =
      some "Using default I2C address 0x40" ∧
    "Using default I2C address 0x40" ≠ header_save cfgDemo.units ∧
    (splitOnChar ',' (header_save cfgDemo.units).data).length = 6 ∧
    (splitOnChar ','
      ("0.000,0.000,0.00000,0.00000,0.00000,0.00000,0.00000" : String).data).length = 7 := by
  refine ⟨?_, by decide, by decide, by decide⟩
  simp only [fileLines, fileWrites_demo]
  decide
